import Mathlib

/-!
Shallow embedding of the AudioEngine of rosshoyt/FMOD-Audio-Engine.

The repository consists of the header `src/AudioEngine.h` and, inside
`src/README.md`, three revisions of `AudioEngine.cpp`:

* the current revision (README lines 33-282), whose header is
  `src/unnamed/part_001`; its `SoundInfo` class (getters/setters over the
  fields `uniqueID, filePath, isLoop, is3D, isLoaded, volume, reverbAmount,
  x, y, z`) lives in a `SoundInfo.h` that is not part of `src/`;
* the oldest revision (README lines 282-454), matching `src/AudioEngine.h`,
  with `soundCache`/`channelMap` keyed by file path;
* a middle revision (README lines 454-626), whose header is
  `src/unnamed/part_000` with a plain-field `SoundInfo` struct.

Floats (volumes, coordinates) are modelled as rationals: the embedded code
only stores and compares them, it never combines them arithmetically except
for the distance-factor product, which is exact.  The FMOD DSP clock is an
`unsigned long long` in the source; it is modelled as `Nat` (the code only
reads it and adds a 32-bit fade length to it, which cannot overflow in any
reachable engine state).

The opaque FMOD backend is modelled as a command trace (`Cmd` list) plus
fresh-handle counters: every native call the engine issues is appended to
the trace, so claims about "which backend calls happen" become claims about
the trace.  `ERRCHECK` in the source only prints and continues, so a failed
native call never aborts the engine; a C++ pointer that was never assigned
a valid handle (null `FMOD::Sound*` inserted by `std::map::operator[]`, or
a channel pointer left unwritten by a failed `playSound`) is modelled as
`none`, and dereferencing it is the unrecoverable `Except.error` outcome.
-/

/-- Association-list model of `std::map<std::string, V>`.  All engine maps
keep keys unique (every mutation below preserves that), and the modelled
code never iterates a map, so the sorted iteration order of `std::map` is
irrelevant; only `count`, `operator[]`, `insert`, `erase` and `size` are
used by the source. -/
abbrev CMap (V : Type) : Type := List (String × V)

/-- Lookup of the value stored under a key, `none` when absent. -/
def mapFind {V : Type} : CMap V → String → Option V
  | [], _ => none
  | (k, v) :: rest, key => if k = key then some v else mapFind rest key

/-- Model of `m.count(k) > 0` for `std::map`. -/
def mapContains {V : Type} (m : CMap V) (k : String) : Bool :=
  (mapFind m k).isSome

/-- Model of `std::map::insert({k, v})`: when the key is already present the
insertion FAILS and the map is unchanged (it does not overwrite). -/
def mapInsert {V : Type} (m : CMap V) (k : String) (v : V) : CMap V :=
  if mapContains m k then m else m ++ [(k, v)]

/-- Model of `std::map::operator[]`: returns the stored value, or
default-inserts `dflt` (a value-initialized, i.e. null, pointer for the
engine's maps) under the key and returns it. -/
def mapBracket {V : Type} (m : CMap V) (k : String) (dflt : V) : V × CMap V :=
  match mapFind m k with
  | some v => (v, m)
  | none => (dflt, m ++ [(k, dflt)])

/-- Model of `std::map::erase(k)`. -/
def mapErase {V : Type} (m : CMap V) (k : String) : CMap V :=
  m.filter (fun p => decide (p.1 ≠ k))

/-- Model of `std::map::size()` (the maps keep keys unique). -/
def mapSize {V : Type} (m : CMap V) : Nat := m.length

/-- Number of entries stored under a given key (1 or 0 for well-formed
maps; used to state the "exactly one ActiveLoop" property). -/
def mapCountKey {V : Type} (m : CMap V) (k : String) : Nat :=
  (m.filter (fun p => decide (p.1 = k))).length

/-- One native FMOD call issued by the engine.  A `none` handle argument
records a call made through an invalid (null or uninitialized) pointer. -/
inductive Cmd where
  | createSound (path : String) (handle : Nat)
  | getLength (sound : Option Nat)
  | play (sound : Option Nat) (channel : Option Nat)
  | set3DAttributes (channel : Option Nat) (x y z : ℚ)
  | setChannelVolume (channel : Option Nat) (v : ℚ)
  | setReverbProperties (channel : Option Nat) (amt : ℚ)
  | setPaused (channel : Option Nat) (paused : Bool)
  | addFadePoint (channel : Option Nat) (clock : Nat) (v : ℚ)
  | stopChannel (channel : Option Nat)
  | setListenerAttributes (pos fwd upv : ℚ × ℚ × ℚ)
  | getEvent (name : String) (desc : Option Nat)
  | createInstance (desc : Option Nat) (inst : Option Nat)
  | setParameterByName (inst : Option Nat) (param : String) (v : ℚ)
  | startInstance (inst : Option Nat)
  | stopInstance (inst : Option Nat)
  | getPlaybackState (inst : Option Nat)
  | setInstanceVolume (inst : Option Nat) (v : ℚ)
  deriving DecidableEq

/-- Is the command a `System::playSound` call (the call that starts a
backend channel)? -/
def isPlayCmd : Cmd → Bool
  | Cmd.play _ _ => true
  | _ => false

/-- Is the command a `System::createSound` call (the call that creates a
backend sound resource)? -/
def isCreateSoundCmd : Cmd → Bool
  | Cmd.createSound _ _ => true
  | _ => false

/-- Is the command an `EventDescription::createInstance` call? -/
def isCreateInstanceCmd : Cmd → Bool
  | Cmd.createInstance _ _ => true
  | _ => false

/-- Number of backend channel starts in a trace. -/
def playCount (l : List Cmd) : Nat := l.countP isPlayCmd

/-- Number of backend sound-resource creations in a trace. -/
def createSoundCount (l : List Cmd) : Nat := l.countP isCreateSoundCmd

/-- Number of backend event-instance creations in a trace. -/
def createInstanceCount (l : List Cmd) : Nat := l.countP isCreateInstanceCmd

/-- The `SoundInfo` descriptor (struct in `src/unnamed/part_000`; the
current revision's `SoundInfo.h` is absent from `src/` and its accessors
`getUniqueID/getFilePath/isLoop/is3D/isLoaded/setLoaded/getVolume/setVolume/
getReverbAmount` are modelled from the spec: plain reads and writes of the
fields below, with `loaded` the flag the spec describes as "true once
backend resource creation succeeded", false on a fresh descriptor). -/
structure SoundInfo where
  uniqueID : String
  filePath : String
  isLoop : Bool
  is3D : Bool
  loaded : Bool
  volume : ℚ
  reverbAmount : ℚ
  x : ℚ
  y : ℚ
  z : ℚ
  deriving DecidableEq

/-- Units per meter (`DISTANCEFACTOR` in `AudioEngine.h`). -/
def DISTANCEFACTOR : ℚ := 1

/-- The AudioEngine state: its five `std::map` registries, the listener
vectors, and the modelled backend (command trace, fresh-handle counters,
the DSP parent clock, which banks provide which event names, and which
event instances the backend currently reports as playing). -/
structure EngineState where
  sounds : CMap (Option Nat)
  loopsPlaying : CMap (Option Nat)
  soundBanks : CMap (Option Nat)
  eventDescriptions : CMap (Option Nat)
  eventInstances : CMap (Option Nat)
  listenerpos : ℚ × ℚ × ℚ
  forward : ℚ × ℚ × ℚ
  up : ℚ × ℚ × ℚ
  nextSound : Nat
  nextChannel : Nat
  nextDesc : Nat
  nextInstance : Nat
  dspClock : Nat
  availableEvents : List String
  playingEvents : List Nat
  log : List Cmd
  deriving DecidableEq

/-- Engine state after the constructor and `init()`: all registries empty,
listener vectors at their field initializers from `AudioEngine.h`. -/
def initState : EngineState :=
  { sounds := [], loopsPlaying := [], soundBanks := [], eventDescriptions := []
    eventInstances := [], listenerpos := (0, 0, -1 * DISTANCEFACTOR)
    forward := (0, 0, 1), up := (0, 1, 0)
    nextSound := 0, nextChannel := 0, nextDesc := 0, nextInstance := 0
    dspClock := 0, availableEvents := [], playingEvents := [], log := [] }

/-- Append one backend call to the trace. -/
def emit (s : EngineState) (c : Cmd) : EngineState :=
  { s with log := s.log ++ [c] }

/-- Backend `FMOD::System::playSound(sound, 0, paused, &channel)`.  With a
valid sound handle a fresh channel is allocated.  With a null sound handle
the native call fails; `ERRCHECK` only prints, and the caller's local
`FMOD::Channel* channel` is left unwritten, so every later use of it goes
through an invalid pointer — modelled as the `none` channel. -/
def backendPlay (s : EngineState) (snd : Option Nat) : Option Nat × EngineState :=
  match snd with
  | some h =>
      (some s.nextChannel,
        { emit s (Cmd.play (some h) (some s.nextChannel)) with
            nextChannel := s.nextChannel + 1 })
  | none => (none, emit s (Cmd.play none none))

/-- `AudioEngine::soundLoaded` (src/README.md lines 244-247 and 596-598):
`sounds.count(soundInfo.uniqueID) > 0`. -/
def soundLoaded (s : EngineState) (d : SoundInfo) : Bool :=
  mapContains s.sounds d.uniqueID

/-- `AudioEngine::soundIsPlaying` (src/README.md lines 152-154):
`soundInfo.isLoop && loopsPlaying.count(soundInfo.uniqueID)`. -/
def soundIsPlaying (s : EngineState) (d : SoundInfo) : Bool :=
  d.isLoop && mapContains s.loopsPlaying d.uniqueID

/-- `AudioEngine::set3dChannelPosition` (src/README.md lines 249-253):
pushes the descriptor's coordinates, scaled by the distance factor, to the
channel (velocity is always zero). -/
def set3dChannelPosition (s : EngineState) (d : SoundInfo) (ch : Option Nat) :
    EngineState :=
  emit s (Cmd.set3DAttributes ch (d.x * DISTANCEFACTOR) (d.y * DISTANCEFACTOR)
    (d.z * DISTANCEFACTOR))

/-- `AudioEngine::loadSound` of the current revision (src/README.md lines
63-78).  The guard is the DESCRIPTOR's own `isLoaded()` flag, not the
`sounds` cache; `soundInfo` is passed BY VALUE, so the trailing
`soundInfo.setLoaded(SOUND_LOADED)` updates a copy that the function
returns here and C++ silently discards — the caller's descriptor keeps
`loaded = false`.  The load branch creates a backend sound, `insert`s it
(no overwrite if the key exists) and queries its length through
`sounds[uniqueID]`. -/
def loadSound (s : EngineState) (d : SoundInfo) : EngineState × SoundInfo :=
  if !d.loaded then
    let h := s.nextSound
    let s1 := { emit s (Cmd.createSound d.filePath h) with nextSound := h + 1 }
    let s2 := { s1 with sounds := mapInsert s1.sounds d.uniqueID (some h) }
    let r := mapBracket s2.sounds d.uniqueID none
    let s3 := emit { s2 with sounds := r.2 } (Cmd.getLength r.1)
    (s3, { d with loaded := true })
  else
    (s, d)

/-- `AudioEngine::playSound` of the current revision (src/README.md lines
80-105).  The play branch is guarded by `!soundInfo.isLoaded()` — the
descriptor flag, NOT cache membership — and the else branch prints "Can't
play, sound was not loaded yet".  Inside the branch `sounds[uniqueID]`
(operator[]) default-inserts a null sound when the id is not cached; the
channel from `backendPlay` is then used for 3D attributes, volume, the
`loopsPlaying` insert (when `isLoop`), reverb, and un-pausing. -/
def playSound (s : EngineState) (d : SoundInfo) : EngineState :=
  if !d.loaded then
    let r := mapBracket s.sounds d.uniqueID none
    let s1 := { s with sounds := r.2 }
    let pr := backendPlay s1 r.1
    let ch := pr.1
    let s2 := pr.2
    let s3 := if d.is3D then set3dChannelPosition s2 d ch else s2
    let s4 := emit s3 (Cmd.setChannelVolume ch d.volume)
    let s5 :=
      if d.isLoop then
        { s4 with loopsPlaying := mapInsert s4.loopsPlaying d.uniqueID ch }
      else s4
    let s6 := emit s5 (Cmd.setReverbProperties ch d.reverbAmount)
    emit s6 (Cmd.setPaused ch false)
  else
    s

/-- `AudioEngine::stopSound` (src/README.md lines 107-114): when
`soundIsPlaying`, stop the channel found by `loopsPlaying[uniqueID]` and
erase the entry; otherwise a reported no-op. -/
def stopSound (s : EngineState) (d : SoundInfo) : EngineState :=
  if soundIsPlaying s d then
    let r := mapBracket s.loopsPlaying d.uniqueID none
    let s1 := emit { s with loopsPlaying := r.2 } (Cmd.stopChannel r.1)
    { s1 with loopsPlaying := mapErase s1.loopsPlaying d.uniqueID }
  else
    s

/-- `AudioEngine::updateSoundLoopVolume` (src/README.md lines 116-140).
`soundInfo` is passed by reference (`SoundInfo&`), so the trailing
`soundInfo.setVolume(newVolume)` IS visible to the caller; the updated
descriptor is the second component.  With `fadeSampleLength <= 64` the
channel volume is set immediately; otherwise `fadeUp = newVolume >
getVolume()`, the DSP parent clock is read, on a fade-up the channel's
logical volume is snapped to `newVolume`, and two fade points are added:
`(parentclock, getVolume())` and `(parentclock + fadeSampleLength,
fadeUp ? 1.0f : newVolume)`. -/
def updateSoundLoopVolume (s : EngineState) (d : SoundInfo) (newVolume : ℚ)
    (fadeSampleLength : Nat) : EngineState × SoundInfo :=
  if soundIsPlaying s d then
    let r := mapBracket s.loopsPlaying d.uniqueID none
    let ch := r.1
    let s1 := { s with loopsPlaying := r.2 }
    if fadeSampleLength ≤ 64 then
      (emit s1 (Cmd.setChannelVolume ch newVolume), { d with volume := newVolume })
    else
      let fadeUp := d.volume < newVolume
      let parentclock := s1.dspClock
      let targetFadeVol : ℚ := if fadeUp then 1 else newVolume
      let s2 := if fadeUp then emit s1 (Cmd.setChannelVolume ch newVolume) else s1
      let s3 := emit s2 (Cmd.addFadePoint ch parentclock d.volume)
      let s4 := emit s3 (Cmd.addFadePoint ch (parentclock + fadeSampleLength) targetFadeVol)
      (s4, { d with volume := newVolume })
  else
    (s, d)

/-- `AudioEngine::set3DListenerPosition` of the current revision
(src/README.md lines 156-161): stores the three vectors component-wise in
the given order and pushes them to the backend listener attributes.  (The
README transcription of line 158 drops the `=` of the `forward`
assignment; the assignment itself, with components in source order, is as
in the middle revision's lines 533-537.) -/
def set3DListenerPosition (s : EngineState)
    (posX posY posZ forwardX forwardY forwardZ upX upY upZ : ℚ) : EngineState :=
  let s1 := { s with listenerpos := (posX, posY, posZ)
                     forward := (forwardX, forwardY, forwardZ)
                     up := (upX, upY, upZ) }
  emit s1 (Cmd.setListenerAttributes s1.listenerpos s1.forward s1.up)

/-- `AudioEngine::set3DListenerPosition` of the oldest revision
(src/README.md lines 362-367): `forward = { forwardY, forwardX, forwardZ }`
and `up = { upY, upX, upZ }` — the X and Y components of the forward and up
vectors are stored SWAPPED relative to the parameter names documented in
`src/AudioEngine.h`. -/
def set3DListenerPositionLegacy (s : EngineState)
    (posX posY posZ forwardX forwardY forwardZ upX upY upZ : ℚ) : EngineState :=
  let s1 := { s with listenerpos := (posX, posY, posZ)
                     forward := (forwardY, forwardX, forwardZ)
                     up := (upY, upX, upZ) }
  emit s1 (Cmd.setListenerAttributes s1.listenerpos s1.forward s1.up)

/-- `AudioEngine::loadFMODStudioEvent` (src/README.md lines 177-191):
`studioSystem->getEvent` resolves the event name against the banks loaded
into the backend (modelled by `availableEvents`); on failure `ERRCHECK`
prints and the local `eventDescription` stays NULL, so the following
`eventDescription->createInstance` dereferences a null pointer (the
`Except.error` outcome).  On success an instance is created, the parameter
pairs are applied to it, and description and instance are `insert`ed — no
overwrite when the name is already a key. -/
def loadFMODStudioEvent (s : EngineState) (eventName : String)
    (paramsValues : List (String × ℚ)) : Except Unit Unit × EngineState :=
  if s.availableEvents.contains eventName then
    let desc := s.nextDesc
    let inst := s.nextInstance
    let s1 := { s with nextDesc := desc + 1, nextInstance := inst + 1
                       log := s.log ++ [Cmd.getEvent eventName (some desc),
                         Cmd.createInstance (some desc) (some inst)] }
    let s2 := paramsValues.foldl
      (fun st pv => emit st (Cmd.setParameterByName (some inst) pv.1 pv.2)) s1
    (Except.ok (),
      { s2 with eventInstances := mapInsert s2.eventInstances eventName (some inst)
                eventDescriptions := mapInsert s2.eventDescriptions eventName (some desc) })
  else
    (Except.error (), emit s (Cmd.getEvent eventName none))

/-- `AudioEngine::playEvent` (src/README.md lines 201-208).  The FIRST
statement is `auto eventInstance = eventInstances[eventName];` — an
unguarded `operator[]` that default-inserts a null instance when the name
is unknown.  The `count(eventName) > 0` check AFTER it therefore always
succeeds and `eventInstances[eventName]->start()` runs: on a null instance
that is a null-pointer dereference (`Except.error`); otherwise the backend
instance is started.  (The `instanceIndex` parameter of the source is
unused.) -/
def playEvent (s : EngineState) (eventName : String) : Except Unit Unit × EngineState :=
  let r := mapBracket s.eventInstances eventName none
  let s1 := { s with eventInstances := r.2 }
  if mapContains s1.eventInstances eventName then
    let r2 := mapBracket s1.eventInstances eventName none
    let s2 := { s1 with eventInstances := r2.2 }
    match r2.1 with
    | none => (Except.error (), s2)
    | some h =>
        (Except.ok (),
          { emit s2 (Cmd.startInstance (some h)) with
              playingEvents := h :: s2.playingEvents })
  else
    (Except.ok (), s1)

/-- `AudioEngine::stopEvent` (src/README.md lines 210-215): properly
guarded by `eventInstances.count(eventName) > 0`; an unknown name is a
reported no-op.  A known name whose stored instance is null (planted by an
earlier failed `playEvent` lookup) is still dereferenced. -/
def stopEvent (s : EngineState) (eventName : String) : Except Unit Unit × EngineState :=
  if mapContains s.eventInstances eventName then
    let r := mapBracket s.eventInstances eventName none
    let s1 := { s with eventInstances := r.2 }
    match r.1 with
    | none => (Except.error (), s1)
    | some h =>
        (Except.ok (),
          { emit s1 (Cmd.stopInstance (some h)) with
              playingEvents := s1.playingEvents.filter (fun n => decide (n ≠ h)) })
  else
    (Except.ok (), s)

/-- `AudioEngine::setEventVolume` (src/README.md lines 217-220):
`eventInstances[eventName]->setVolume(volume0to1)` with NO presence check —
an unknown name default-inserts a null instance and dereferences it. -/
def setEventVolume (s : EngineState) (eventName : String) (volume0to1 : ℚ) :
    Except Unit Unit × EngineState :=
  let r := mapBracket s.eventInstances eventName none
  let s1 := { s with eventInstances := r.2 }
  match r.1 with
  | none => (Except.error (), s1)
  | some h => (Except.ok (), emit s1 (Cmd.setInstanceVolume (some h) volume0to1))

/-- `AudioEngine::eventIsPlaying` (src/README.md lines 222-226):
`eventInstances[eventName]->getPlaybackState(&playbackState)` with NO
presence check — an unknown name default-inserts a null instance and
dereferences it; a known instance reports whether the backend state is
`FMOD_STUDIO_PLAYBACK_PLAYING`. -/
def eventIsPlaying (s : EngineState) (eventName : String) :
    Except Unit Bool × EngineState :=
  let r := mapBracket s.eventInstances eventName none
  let s1 := { s with eventInstances := r.2 }
  match r.1 with
  | none => (Except.error (), s1)
  | some h =>
      (Except.ok (s1.playingEvents.contains h),
        emit s1 (Cmd.getPlaybackState (some h)))

namespace Mid

/-- `AudioEngine::loadSound` of the middle revision (src/README.md lines
476-487): guarded by `!soundLoaded(soundInfo)`, i.e. by CACHE membership;
the already-present branch only prints "Sound File was already loaded!". -/
def loadSound (s : EngineState) (d : SoundInfo) : EngineState :=
  if !soundLoaded s d then
    let h := s.nextSound
    let s1 := { emit s (Cmd.createSound d.filePath h) with nextSound := h + 1 }
    { s1 with sounds := mapInsert s1.sounds d.uniqueID (some h) }
  else
    s

/-- `AudioEngine::playSound` of the middle revision (src/README.md lines
489-508): guarded by `soundLoaded(soundInfo)` (cache membership); an
uncached id only prints "Can't play, sound was not loaded yet" and changes
nothing.  The play branch starts the cached sound paused, applies 3D
attributes when `is3D`, records the channel in `loopsPlaying` when
`isLoop`, and un-pauses. -/
def playSound (s : EngineState) (d : SoundInfo) : EngineState :=
  if soundLoaded s d then
    let r := mapBracket s.sounds d.uniqueID none
    let s1 := { s with sounds := r.2 }
    let pr := backendPlay s1 r.1
    let ch := pr.1
    let s2 := pr.2
    let s3 := if d.is3D then set3dChannelPosition s2 d ch else s2
    let s4 :=
      if d.isLoop then
        { s3 with loopsPlaying := mapInsert s3.loopsPlaying d.uniqueID ch }
      else s3
    emit s4 (Cmd.setPaused ch false)
  else
    s

end Mid

deriving instance DecidableEq for Except

/-- A looping, non-3D descriptor for "explosion.wav" as a caller constructs
it: never loaded (`loaded = false`), volume 1, no reverb. -/
def dFresh : SoundInfo :=
  { uniqueID := "explosion.wav", filePath := "explosion.wav", isLoop := true
    is3D := false, loaded := false, volume := 1, reverbAmount := 0
    x := 0, y := 0, z := 0 }

/-- Engine state after `loadSound(dFresh)`.  The updated descriptor copy the
function returns is discarded, exactly as C++ discards the by-value
argument: the caller's `dFresh` still has `loaded = false`. -/
def sLoaded : EngineState := (loadSound initState dFresh).1

/-- Engine state after `loadSound(dFresh)` twice with the caller's unchanged
descriptor. -/
def sLoadedTwice : EngineState := (loadSound sLoaded dFresh).1

/-- Engine state after loading and then playing `dFresh` once. -/
def sPlaying : EngineState := playSound sLoaded dFresh

/-- Engine state after a second `playSound(dFresh)` on `sPlaying`. -/
def sPlayingTwice : EngineState := playSound sPlaying dFresh

/-- Middle revision: state after `loadSound(dFresh)`. -/
def sMidLoaded : EngineState := Mid.loadSound initState dFresh

/-- Middle revision: state after `loadSound(dFresh)` twice. -/
def sMidLoadedTwice : EngineState := Mid.loadSound sMidLoaded dFresh

/-- State in which the backend can resolve the event "Explosion" (its bank
has been loaded). -/
def sBankLoaded : EngineState := { initState with availableEvents := ["Explosion"] }

/-- State after `loadFMODStudioEvent("Explosion")` once. -/
def sEventLoaded : EngineState := (loadFMODStudioEvent sBankLoaded "Explosion" []).2

/-- State after `loadFMODStudioEvent("Explosion")` twice. -/
def sEventLoadedTwice : EngineState := (loadFMODStudioEvent sEventLoaded "Explosion" []).2

theorem mapContains_of_find {V : Type} {m : CMap V} {k : String} {v : V}
    (h : mapFind m k = some v) : mapContains m k = true := by
  simp [mapContains, h]

theorem mapFind_eq_none_of_not_contains {V : Type} {m : CMap V} {k : String}
    (h : mapContains m k = false) : mapFind m k = none := by
  simpa [mapContains, Option.isSome_iff_exists] using h

theorem mapBracket_of_find {V : Type} {m : CMap V} {k : String} {v : V} (d : V)
    (h : mapFind m k = some v) : mapBracket m k d = (v, m) := by
  simp [mapBracket, h]

theorem mapBracket_of_absent {V : Type} {m : CMap V} {k : String} (d : V)
    (h : mapFind m k = none) : mapBracket m k d = (d, m ++ [(k, d)]) := by
  simp [mapBracket, h]

theorem mapInsert_of_contains {V : Type} {m : CMap V} {k : String} (v : V)
    (h : mapContains m k = true) : mapInsert m k v = m := by
  simp [mapInsert, h]

theorem mapFind_append_right {V : Type} {m : CMap V} {k : String}
    (l : CMap V) (h : mapFind m k = none) :
    mapFind (m ++ l) k = mapFind l k := by
  induction m with
  | nil => rfl
  | cons p rest ih =>
      by_cases hk : p.1 = k
      · simp [mapFind, hk] at h
      · simp only [mapFind, hk, if_neg hk, List.cons_append] at h ⊢
        exact ih h

theorem mapContains_insert_self {V : Type} (m : CMap V) (k : String) (v : V) :
    mapContains (mapInsert m k v) k = true := by
  by_cases h : mapContains m k = true
  · simp [mapInsert_of_contains v h, h]
  · have h0 : mapContains m k = false := by
      cases hc : mapContains m k
      · rfl
      · exact absurd hc h
    have hn := mapFind_eq_none_of_not_contains h0
    simp [mapInsert, mapContains, hn, mapFind_append_right _ hn, mapFind]

theorem mapFind_erase_self {V : Type} (m : CMap V) (k : String) :
    mapFind (mapErase m k) k = none := by
  induction m with
  | nil => rfl
  | cons p rest ih =>
      by_cases hk : p.1 = k
      · simpa [mapErase, hk] using ih
      · simpa [mapErase, mapFind, hk] using ih

theorem mapContains_erase_self {V : Type} (m : CMap V) (k : String) :
    mapContains (mapErase m k) k = false := by
  simp [mapContains, mapFind_erase_self]

theorem playSound_registers_loop (s : EngineState) (d : SoundInfo)
    (hnl : d.loaded = false) (hl : d.isLoop = true) :
    mapContains (playSound s d).loopsPlaying d.uniqueID = true := by
  cases hf : mapFind s.sounds d.uniqueID with
  | none =>
      cases h3 : d.is3D <;>
        simp [playSound, hnl, hl, h3, mapBracket_of_absent _ hf, backendPlay,
          emit, set3dChannelPosition, mapContains_insert_self]
  | some v =>
      cases v with
      | none =>
          cases h3 : d.is3D <;>
            simp [playSound, hnl, hl, h3, mapBracket_of_find _ hf, backendPlay,
              emit, set3dChannelPosition, mapContains_insert_self]
      | some h =>
          cases h3 : d.is3D <;>
            simp [playSound, hnl, hl, h3, mapBracket_of_find _ hf, backendPlay,
              emit, set3dChannelPosition, mapContains_insert_self]

theorem stopSound_not_playing (s : EngineState) (d : SoundInfo) :
    soundIsPlaying (stopSound s d) d = false := by
  cases hp : soundIsPlaying s d with
  | false => simp [stopSound, hp]
  | true =>
      have hl : d.isLoop = true := by
        have := hp
        simp [soundIsPlaying, Bool.and_eq_true] at this
        exact this.1
      have hc : mapContains s.loopsPlaying d.uniqueID = true := by
        have := hp
        simp [soundIsPlaying, Bool.and_eq_true] at this
        exact this.2
      obtain ⟨v, hv⟩ : ∃ v, mapFind s.loopsPlaying d.uniqueID = some v := by
        simpa [mapContains, Option.isSome_iff_exists] using hc
      simp [stopSound, hl, hc, mapBracket_of_find _ hv, emit, soundIsPlaying,
        mapContains_erase_self]

theorem foldlParams_state (inst : Nat) (ps : List (String × ℚ)) (s : EngineState) :
    ∃ l : List Cmd,
      ps.foldl (fun st pv => emit st (Cmd.setParameterByName (some inst) pv.1 pv.2)) s
        = { s with log := s.log ++ l }
      ∧ l.countP isCreateInstanceCmd = 0 := by
  induction ps generalizing s with
  | nil => exact ⟨[], by simp, rfl⟩
  | cons p rest ih =>
      obtain ⟨l, hl, hl0⟩ := ih (emit s (Cmd.setParameterByName (some inst) p.1 p.2))
      refine ⟨Cmd.setParameterByName (some inst) p.1 p.2 :: l, ?_, ?_⟩
      · simpa [emit] using hl
      · simp [List.countP_cons, hl0, isCreateInstanceCmd]

/-- C1: the claim states that `playSound` on a descriptor whose id is absent
from the `sounds` cache fails with a reported NotLoaded outcome, starting no
backend channel and leaving `loopsPlaying` unchanged.  The current
revision's `playSound` (src/README.md lines 80-105) instead guards the play
branch with the descriptor's own `isLoaded()` flag, inverted: a never-loaded
descriptor takes the PLAY branch, `sounds[uniqueID]` plants a null sound in
the cache, a backend play call is issued (it fails, leaving the channel
pointer invalid), and the id IS inserted into `loopsPlaying` — whereas the
middle revision's cache-guarded `playSound` (lines 489-508) really is an
unchanged-state no-op on the same input. -/
theorem C1_playSound_unloaded_plays_and_mutates_registry :
    (playSound initState dFresh).loopsPlaying = [("explosion.wav", none)]
  ∧ (playSound initState dFresh).sounds = [("explosion.wav", none)]
  ∧ playCount (playSound initState dFresh).log = 1
  ∧ Mid.playSound initState dFresh = initState :=
  ⟨by decide, by decide, by decide, rfl⟩

/-- C2: `soundIsPlaying` is true iff the descriptor's loop policy holds AND
its id has an entry in `loopsPlaying`; it is true immediately after a
`playSound` that took the play branch on a looping descriptor (this
revision's play branch fires when the descriptor flag `isLoaded()` is
false, see C1), false after `stopSound` of that descriptor, and always
false for a non-looping descriptor. -/
theorem C2_soundIsPlaying_iff_loop_and_registered (s : EngineState) (d : SoundInfo) :
    soundIsPlaying s d = (d.isLoop && mapContains s.loopsPlaying d.uniqueID)
  ∧ (d.isLoop = true → d.loaded = false → soundIsPlaying (playSound s d) d = true)
  ∧ soundIsPlaying (stopSound s d) d = false
  ∧ (d.isLoop = false → soundIsPlaying s d = false) :=
  ⟨rfl,
   fun hl hnl => by
     simp [soundIsPlaying, hl, playSound_registers_loop s d hnl hl],
   stopSound_not_playing s d,
   fun h => by simp [soundIsPlaying, h]⟩

/-- Witness for C2 on a concrete run: load "explosion.wav", play it, then
stop it. -/
theorem C2_witness :
    soundIsPlaying (playSound sLoaded dFresh) dFresh = true
  ∧ soundIsPlaying (stopSound sPlaying dFresh) dFresh = false :=
  ⟨(C2_soundIsPlaying_iff_loop_and_registered sLoaded dFresh).2.1 rfl rfl,
   (C2_soundIsPlaying_iff_loop_and_registered sPlaying dFresh).2.2.1⟩

/-- C3: the claim states that a second `loadSound` with the same id is a
no-op ("already loaded" notice) with no second backend `createSound` and an
unchanged cache size.  The current revision's `loadSound` (src/README.md
lines 63-78) guards on the descriptor's `isLoaded()` flag, but sets that
flag only on its BY-VALUE copy (third conjunct), which C++ discards; the
caller's descriptor still reads un-loaded, so the second call runs the load
branch again and issues a SECOND backend `createSound` (the `insert` into
the cache then silently fails, so the cache size stays 1 and the second
sound handle leaks).  The middle revision (lines 476-487), cache-guarded,
creates exactly one backend resource as the claim says. -/
theorem C3_loadSound_twice_recreates_backend_resource :
    createSoundCount sLoadedTwice.log = 2
  ∧ mapSize sLoadedTwice.sounds = 1
  ∧ (loadSound initState dFresh).2.loaded = true
  ∧ createSoundCount sMidLoadedTwice.log = 1
  ∧ mapSize sMidLoadedTwice.sounds = 1 := by decide

/-- C4, counterexample: the claim states that a second `playSound` on an
already-playing looping id is rejected (AlreadyPlaying) rather than
starting a second backend channel.  On the concrete run load + play + play
of "explosion.wav", the second call issues a SECOND backend play (the trace
holds two channel starts), so it is not rejected; only the registry part of
the claim survives: `loopsPlaying` still holds exactly one entry, mapped to
the ORIGINAL channel 0. -/
theorem C4_counterexample_second_play_starts_new_channel :
    playCount sPlaying.log = 1
  ∧ playCount sPlayingTwice.log = 2
  ∧ mapCountKey sPlayingTwice.loopsPlaying "explosion.wav" = 1
  ∧ mapFind sPlayingTwice.loopsPlaying "explosion.wav" = some (some 0) := by decide

/-- C4, amended: a second `playSound` on an already-playing looping id whose
sound is cached is NOT rejected: it starts a second backend channel (one
more play call, a fresh channel handle allocated), while the
`loopsPlaying.insert` silently fails, so the registry is unchanged and keeps
exactly one entry for the id — mapped to the original channel, not the new
one.  (In this revision the play branch fires when the descriptor flag
`isLoaded()` is false, see C1.) -/
theorem C4_second_play_stacks_channel_registry_unchanged
    (s : EngineState) (d : SoundInfo) (sh : Nat)
    (hnl : d.loaded = false) (hl : d.isLoop = true)
    (hSnd : mapFind s.sounds d.uniqueID = some (some sh))
    (hPlaying : mapContains s.loopsPlaying d.uniqueID = true)
    (hOne : mapCountKey s.loopsPlaying d.uniqueID = 1) :
    playCount (playSound s d).log = playCount s.log + 1
  ∧ (playSound s d).loopsPlaying = s.loopsPlaying
  ∧ mapCountKey (playSound s d).loopsPlaying d.uniqueID = 1
  ∧ (playSound s d).nextChannel = s.nextChannel + 1 := by
  cases h3 : d.is3D <;>
    simp [playSound, hnl, hl, h3, mapBracket_of_find _ hSnd, backendPlay, emit,
      set3dChannelPosition, mapInsert_of_contains _ hPlaying, hOne, playCount,
      List.countP_append, List.countP_cons, isPlayCmd]

/-- Witness for C4's amended theorem on the concrete run load + play +
play. -/
theorem C4_witness :
    playCount (playSound sPlaying dFresh).log = playCount sPlaying.log + 1
  ∧ (playSound sPlaying dFresh).loopsPlaying = sPlaying.loopsPlaying
  ∧ mapCountKey (playSound sPlaying dFresh).loopsPlaying dFresh.uniqueID = 1
  ∧ (playSound sPlaying dFresh).nextChannel = sPlaying.nextChannel + 1 :=
  C4_second_play_stacks_channel_registry_unchanged sPlaying dFresh 0 rfl rfl
    (by decide) (by decide) (by decide)

/-- C5: `updateSoundLoopVolume` on a playing loop.  With
`fadeSampleLength <= 64` the channel volume is set immediately and no fade
point is issued; with `fadeSampleLength > 64` exactly two fade points are
issued at clock ticks `t0` and `t0 + fadeSampleLength`, the first carrying
the descriptor's stored volume, the second carrying 1.0 when `newVolume`
exceeds the stored volume (with the channel's logical volume snapped to
`newVolume` first) and `newVolume` otherwise; in every branch the
descriptor's stored volume becomes `newVolume`. -/
theorem C5_updateSoundLoopVolume_fade_behaviour (s : EngineState) (d : SoundInfo)
    (newVolume : ℚ) (fadeSampleLength : Nat) (ch : Option Nat)
    (hl : d.isLoop = true)
    (hch : mapFind s.loopsPlaying d.uniqueID = some ch) :
    (fadeSampleLength ≤ 64 →
      updateSoundLoopVolume s d newVolume fadeSampleLength =
        ({ s with log := s.log ++ [Cmd.setChannelVolume ch newVolume] },
         { d with volume := newVolume }))
  ∧ (64 < fadeSampleLength → d.volume < newVolume →
      updateSoundLoopVolume s d newVolume fadeSampleLength =
        ({ s with log := s.log ++ [Cmd.setChannelVolume ch newVolume,
             Cmd.addFadePoint ch s.dspClock d.volume,
             Cmd.addFadePoint ch (s.dspClock + fadeSampleLength) 1] },
         { d with volume := newVolume }))
  ∧ (64 < fadeSampleLength → ¬ d.volume < newVolume →
      updateSoundLoopVolume s d newVolume fadeSampleLength =
        ({ s with log := s.log ++ [Cmd.addFadePoint ch s.dspClock d.volume,
             Cmd.addFadePoint ch (s.dspClock + fadeSampleLength) newVolume] },
         { d with volume := newVolume })) := by
  have hc : mapContains s.loopsPlaying d.uniqueID = true := mapContains_of_find hch
  refine ⟨fun hf => ?_, fun hf hup => ?_, fun hf hdown => ?_⟩
  · simp [updateSoundLoopVolume, soundIsPlaying, hl, hc,
      mapBracket_of_find _ hch, hf, emit]
  · have hf64 : ¬ fadeSampleLength ≤ 64 := by omega
    simp [updateSoundLoopVolume, soundIsPlaying, hl, hc,
      mapBracket_of_find _ hch, hf64, hup, emit]
  · have hf64 : ¬ fadeSampleLength ≤ 64 := by omega
    simp [updateSoundLoopVolume, soundIsPlaying, hl, hc,
      mapBracket_of_find _ hch, hf64, hdown, emit]

/-- Witness for C5 on a concrete fade-down: volume 1 to 0 over 128 samples
on the playing loop. -/
theorem C5_witness :
    updateSoundLoopVolume sPlaying dFresh 0 128 =
      ({ sPlaying with log := sPlaying.log ++
           [Cmd.addFadePoint (some 0) sPlaying.dspClock dFresh.volume,
            Cmd.addFadePoint (some 0) (sPlaying.dspClock + 128) 0] },
       { dFresh with volume := 0 }) :=
  (C5_updateSoundLoopVolume_fade_behaviour sPlaying dFresh 0 128 (some 0) rfl
    (by decide)).2.2 (by decide) (by decide)

/-- C6: the claim states that `playEvent` and `stopEvent` on a name absent
from `eventInstances` are reported no-ops that neither crash nor mutate the
registries.  `stopEvent` (guarded by `count`) is exactly that.  But
`playEvent`'s first statement `auto eventInstance = eventInstances[eventName]`
default-inserts a null instance BEFORE the `count` check, so the check
always passes and `eventInstances[eventName]->start()` dereferences the
null handle (the error outcome), with `eventInstances` left holding the
planted null entry — contradicting the code's own (now unreachable)
"cannot play" diagnostic branch. -/
theorem C6_playEvent_unknown_name_faults_and_mutates :
    (playEvent initState "Nonexistent").1 = Except.error ()
  ∧ (playEvent initState "Nonexistent").2.eventInstances = [("Nonexistent", none)]
  ∧ (playEvent initState "Nonexistent").2.eventDescriptions = []
  ∧ (stopEvent initState "Nonexistent").1 = Except.ok ()
  ∧ (stopEvent initState "Nonexistent").2 = initState :=
  ⟨by decide, by decide, by decide, by decide, rfl⟩

/-- C7: the claim states that `set3DListenerPosition` stores the three
vectors verbatim with component order preserved.  The current revision
(src/README.md lines 156-161) does; the oldest revision (lines 362-367),
also cited by the claim, stores the forward and up vectors with their X and
Y components SWAPPED — `forward = { forwardY, forwardX, forwardZ }`,
`up = { upY, upX, upZ }` — contradicting the parameter documentation in
`src/AudioEngine.h` (a read-back does not return the values passed in). -/
theorem C7_set3DListenerPosition_legacy_swaps_forward_up :
    (set3DListenerPositionLegacy initState 1 2 3 4 5 6 7 8 9).listenerpos = (1, 2, 3)
  ∧ (set3DListenerPositionLegacy initState 1 2 3 4 5 6 7 8 9).forward = (5, 4, 6)
  ∧ (set3DListenerPositionLegacy initState 1 2 3 4 5 6 7 8 9).up = (8, 7, 9)
  ∧ ¬ (set3DListenerPositionLegacy initState 1 2 3 4 5 6 7 8 9).forward = (4, 5, 6)
  ∧ (set3DListenerPosition initState 1 2 3 4 5 6 7 8 9).listenerpos = (1, 2, 3)
  ∧ (set3DListenerPosition initState 1 2 3 4 5 6 7 8 9).forward = (4, 5, 6)
  ∧ (set3DListenerPosition initState 1 2 3 4 5 6 7 8 9).up = (7, 8, 9) := by decide

/-- C8, counterexample: the claim states that re-loading an already-present
event name overwrites the stored instance, so the slot afterwards holds the
NEWLY created instance.  On the concrete run that loads "Explosion" twice,
the second call does create a second backend instance (handle 1, two
`createInstance` calls in the trace), but `std::map::insert` does not
overwrite: the slot still holds the FIRST instance (handle 0), not the new
one. -/
theorem C8_counterexample_reload_keeps_prior_instance :
    createInstanceCount sEventLoadedTwice.log = 2
  ∧ sEventLoadedTwice.nextInstance = 2
  ∧ mapFind sEventLoadedTwice.eventInstances "Explosion" = some (some 0)
  ∧ ¬ mapFind sEventLoadedTwice.eventInstances "Explosion" = some (some 1) := by
  decide

/-- C8, amended: calling `loadFMODStudioEvent` again with a name already in
the registries (and resolvable by the backend) creates a new backend
instance, but the `insert` calls silently fail: `eventInstances` and
`eventDescriptions` are unchanged, the slot keeps the prior instance, and
the newly created instance handle is left unreferenced (leaked). -/
theorem C8_reload_event_creates_instance_but_keeps_old_slot
    (s : EngineState) (name : String) (ps : List (String × ℚ)) (oldInst : Option Nat)
    (hAvail : s.availableEvents.contains name = true)
    (hOld : mapFind s.eventInstances name = some oldInst)
    (hOldD : mapContains s.eventDescriptions name = true) :
    (loadFMODStudioEvent s name ps).1 = Except.ok ()
  ∧ createInstanceCount (loadFMODStudioEvent s name ps).2.log
      = createInstanceCount s.log + 1
  ∧ (loadFMODStudioEvent s name ps).2.eventInstances = s.eventInstances
  ∧ mapFind (loadFMODStudioEvent s name ps).2.eventInstances name = some oldInst
  ∧ (loadFMODStudioEvent s name ps).2.eventDescriptions = s.eventDescriptions := by
  have hcI : mapContains s.eventInstances name = true := mapContains_of_find hOld
  have hmem : name ∈ s.availableEvents := by simpa using hAvail
  obtain ⟨l, hfold, hl0⟩ := foldlParams_state s.nextInstance ps
    { s with nextDesc := s.nextDesc + 1, nextInstance := s.nextInstance + 1
             log := s.log ++ [Cmd.getEvent name (some s.nextDesc),
               Cmd.createInstance (some s.nextDesc) (some s.nextInstance)] }
  simp [loadFMODStudioEvent, hmem, hfold, mapInsert_of_contains _ hcI,
    mapInsert_of_contains _ hOldD, hOld, createInstanceCount,
    List.countP_append, List.countP_cons, isCreateInstanceCmd, hl0]

/-- Witness for C8's amended theorem on the concrete double-load of
"Explosion". -/
theorem C8_witness :
    (loadFMODStudioEvent sEventLoaded "Explosion" []).1 = Except.ok ()
  ∧ createInstanceCount (loadFMODStudioEvent sEventLoaded "Explosion" []).2.log
      = createInstanceCount sEventLoaded.log + 1
  ∧ (loadFMODStudioEvent sEventLoaded "Explosion" []).2.eventInstances
      = sEventLoaded.eventInstances
  ∧ mapFind (loadFMODStudioEvent sEventLoaded "Explosion" []).2.eventInstances
      "Explosion" = some (some 0)
  ∧ (loadFMODStudioEvent sEventLoaded "Explosion" []).2.eventDescriptions
      = sEventLoaded.eventDescriptions :=
  C8_reload_event_creates_instance_but_keeps_old_slot sEventLoaded "Explosion" []
    (some 0) (by decide) (by decide) (by decide)

/-- C9: `eventIsPlaying` and `setEventVolume` look the name up with an
unguarded `operator[]`: an unknown name default-inserts a fresh null
instance handle into `eventInstances` (the registry is mutated by the
failed query) and then dereferences that null handle — the error branch of
the embedding, reachable for every absent name. -/
theorem C9_unguarded_event_lookup_inserts_null_and_faults
    (s : EngineState) (name : String) (v : ℚ)
    (habs : mapContains s.eventInstances name = false) :
    (eventIsPlaying s name).1 = Except.error ()
  ∧ (eventIsPlaying s name).2.eventInstances = s.eventInstances ++ [(name, none)]
  ∧ (setEventVolume s name v).1 = Except.error ()
  ∧ (setEventVolume s name v).2.eventInstances = s.eventInstances ++ [(name, none)] := by
  have hn := mapFind_eq_none_of_not_contains habs
  simp [eventIsPlaying, setEventVolume, mapBracket_of_absent _ hn]

/-- Witness for C9 at the unknown event name "Ghost" on the initial
state. -/
theorem C9_witness :
    (eventIsPlaying initState "Ghost").1 = Except.error ()
  ∧ (eventIsPlaying initState "Ghost").2.eventInstances = [("Ghost", none)]
  ∧ (setEventVolume initState "Ghost" 1).1 = Except.error ()
  ∧ (setEventVolume initState "Ghost" 1).2.eventInstances = [("Ghost", none)] :=
  C9_unguarded_event_lookup_inserts_null_and_faults initState "Ghost" 1 (by decide)

/-- C10: with `fadeSampleLength > 64` and `newVolume` equal to the stored
volume, the upward test `newVolume > getVolume()` is strict, so the call is
classified as a downward ramp: no snap `setVolume` is issued, and the two
fade points both carry the same volume value (the audible level is constant
over `[t0, t0 + fadeSampleLength]`); the descriptor's volume is rewritten
to the same value. -/
theorem C10_equal_volume_fade_is_constant (s : EngineState) (d : SoundInfo)
    (fadeSampleLength : Nat) (ch : Option Nat)
    (hl : d.isLoop = true)
    (hch : mapFind s.loopsPlaying d.uniqueID = some ch)
    (hf : 64 < fadeSampleLength) :
    updateSoundLoopVolume s d d.volume fadeSampleLength =
      ({ s with log := s.log ++ [Cmd.addFadePoint ch s.dspClock d.volume,
           Cmd.addFadePoint ch (s.dspClock + fadeSampleLength) d.volume] }, d) := by
  have hc : mapContains s.loopsPlaying d.uniqueID = true := mapContains_of_find hch
  have hf64 : ¬ fadeSampleLength ≤ 64 := by omega
  have hsp : soundIsPlaying s d = true := by simp [soundIsPlaying, hl, hc]
  simp [updateSoundLoopVolume, hsp, mapBracket_of_find _ hch, hf64, emit,
    lt_irrefl]

/-- Witness for C10: a 128-sample "fade" from volume 1 to volume 1 on the
playing loop issues two equal fade points. -/
theorem C10_witness :
    updateSoundLoopVolume sPlaying dFresh dFresh.volume 128 =
      ({ sPlaying with log := sPlaying.log ++
           [Cmd.addFadePoint (some 0) sPlaying.dspClock dFresh.volume,
            Cmd.addFadePoint (some 0) (sPlaying.dspClock + 128) dFresh.volume] },
       dFresh) :=
  C10_equal_volume_fade_is_constant sPlaying dFresh 128 (some 0) rfl (by decide)
    (by decide)
